import Mathlib

set_option linter.unusedVariables false

/-!
Verification development for the `esgpt_task_querying` querying subsystem.

The module `src/esgpt_task_querying/main.py` defines `query_task`, which
prepares an event table, loads a task configuration, generates predicate
columns, builds the window tree, filters the table down to trigger anchors,
runs the recursive window engine, and assembles the wide result table.

The embedding below translates `main.py` into executable Lean definitions
over a small model of polars data frames.  Collaborators that are not part
of the given source (dataset loading internals, `load_config`,
`generate_predicate_columns`, the window-tree validation of
`build_tree_from_config`, and the engine `query_subtree`) are modelled from
the specification; each such definition carries a doc comment saying so.
-/

namespace ACES

/-- Cell values of the polars data-frame model.  A window summary is a flat
struct of integer predicate counts, so struct values carry integer fields. -/
inductive Val where
  | vint (i : Int)
  | vstr (s : String)
  | vdt (t : Int)
  | vnull
  | vstruct (fields : List (String × Int))
deriving DecidableEq, Repr

/-- Column data types of the polars model. -/
inductive DType where
  | dint
  | dstr
  | ddatetime
  | dstruct
deriving DecidableEq, Repr

/-- One data-frame row: an association list from column name to value. -/
abbrev Row := List (String × Val)

/-- Data frame: schema (column names with dtypes) plus rows. -/
structure DF where
  cols : List (String × DType)
  rows : List Row
deriving DecidableEq, Repr

/-- Exceptions that can be raised along the `query_task` pipeline.  The
constructors mirror the Python exception classes that each site raises:
`valueError` for the explicit checks in `main.py`, `columnNotFound`,
`shapeError`, `structFieldNotFound`, `computeError` and `schemaError` for
polars errors, and `configurationError` / `emptyResultError` for the error
kinds the specification assigns to the modelled collaborators.  `wrapped`
models a raise-from with an added context message. -/
inductive PyError where
  | valueError (msg : String)
  | columnNotFound (col : String)
  | shapeError (maskLen dfLen : Nat)
  | structFieldNotFound (fieldName : String)
  | computeError (msg : String)
  | schemaError (msg : String)
  | configurationError (msg : String)
  | emptyResultError (msg : String)
  | wrapped (msg : String) (cause : PyError)
deriving DecidableEq, Repr

/-- Error kinds named by the specification. -/
inductive ErrorKind where
  | input
  | configuration
  | emptyResult
  | other
deriving DecidableEq, Repr

def emptyMsg : String := "Empty ESD!"

def tsMissingMsg : String := "ESD does not have timestamp column!"

def sidMissingMsg : String := "ESD does not have subject_id column!"

def genWrapMsg : String :=
  "Error generating predicate columns from configuration file! Check to make sure the format of the configuration file is valid."

/-- Classification of raised errors into the error kinds of the
specification: defects of the input table (empty table, missing or badly
typed required columns, unparseable timestamps) are input errors; defects
of the configuration (unresolvable predicate references, malformed window
tree, wrapped predicate-generation failures) are configuration errors. -/
def kindOf : PyError → ErrorKind
  | .valueError m =>
      if m = emptyMsg ∨ m = tsMissingMsg ∨ m = sidMissingMsg then .input else .other
  | .columnNotFound c =>
      if c = "timestamp" ∨ c = "subject_id" then .input else .configuration
  | .shapeError _ _ => .other
  | .structFieldNotFound _ => .configuration
  | .computeError _ => .input
  | .schemaError _ => .input
  | .configurationError _ => .configuration
  | .emptyResultError _ => .emptyResult
  | .wrapped _ _ => .configuration

/-- Column names of a data frame. -/
def DF.colNames (df : DF) : List String := df.cols.map Prod.fst

/-- Model of `str.startswith`, written over character lists so that it
evaluates by plain recursion. -/
def strStartsWith (s pre : String) : Bool := pre.toList.isPrefixOf s.toList

/-- Value of a column within a row. -/
def getVal (r : Row) (c : String) : Option Val := List.lookup c r

/-- Declared dtype of a column. -/
def dtypeOf (df : DF) (c : String) : Option DType := List.lookup c df.cols

/-- Error-propagating map over a list, written by plain recursion so that
proofs can unfold it. -/
def mapE (f : α → Except PyError β) : List α → Except PyError (List β)
  | [] => .ok []
  | a :: l =>
    match f a with
    | .error e => .error e
    | .ok b =>
      match mapE f l with
      | .error e => .error e
      | .ok bs => .ok (b :: bs)

/-- Error-propagating fold over a list. -/
def foldE (f : γ → α → Except PyError γ) : γ → List α → Except PyError γ
  | acc, [] => .ok acc
  | acc, a :: l =>
    match f acc a with
    | .error e => .error e
    | .ok acc2 => foldE f acc2 l

/-- Replace the first entry with the given key, or append one: the
behaviour of polars `with_columns` for a single named column. -/
def setEntry : Row → String → Val → Row
  | [], k, v => [(k, v)]
  | p :: r, k, v => if p.1 = k then (k, v) :: r else p :: setEntry r k v

/-- Same replacement operation on a schema. -/
def setColEntry : List (String × DType) → String → DType → List (String × DType)
  | [], k, t => [(k, t)]
  | p :: l, k, t => if p.1 = k then (k, t) :: l else p :: setColEntry l k t

/-- Keep the rows selected by a boolean mask (zip semantics). -/
def maskFilter : List Row → List Bool → List Row
  | [], _ => []
  | _, [] => []
  | r :: rs, b :: bs => if b then r :: maskFilter rs bs else maskFilter rs bs

/-- Model of comparing a polars column against the literal 1. -/
def isOneVal : Option Val → Bool
  | some (.vint i) => i == 1
  | _ => false

/-- Model of `df[c] == 1`: a full-length boolean mask over the rows of
`df`, raising the polars column-not-found error when `c` is absent. -/
def seriesEqOne (df : DF) (c : String) : Except PyError (List Bool) :=
  if df.colNames.contains c then
    .ok (df.rows.map (fun r => isOneVal (getVal r c)))
  else .error (.columnNotFound c)

/-- Model of `df.filter(mask)` for a boolean series `mask`: polars raises a
shape error when the mask length differs from the frame height. -/
def filterMask (df : DF) (mask : List Bool) : Except PyError DF :=
  if mask.length = df.rows.length then .ok { df with rows := maskFilter df.rows mask }
  else .error (.shapeError mask.length df.rows.length)

/-- Model of `df.select(names)`: raises column-not-found on a missing
name, otherwise produces exactly the requested columns in order. -/
def DF.select (df : DF) (names : List String) : Except PyError DF :=
  match names.find? (fun n => !(df.colNames.contains n)) with
  | some n => .error (.columnNotFound n)
  | none =>
    .ok { cols := names.map (fun n => (n, (dtypeOf df n).getD .dint)),
          rows := df.rows.map (fun r => names.map (fun n => (n, (getVal r n).getD .vnull))) }

/-- Model of `df.rename({old: new})`. -/
def DF.renameCol (df : DF) (old new : String) : DF :=
  { cols := df.cols.map (fun p => if p.1 = old then (new, p.2) else p),
    rows := df.rows.map (fun r => r.map (fun p => if p.1 = old then (new, p.2) else p)) }

/-- Model of `df.with_columns(lit(k).alias(c) for c in cs)`. -/
def DF.setConstInt (df : DF) (cs : List String) (k : Int) : DF :=
  { cols := df.cols.map (fun p => if cs.contains p.1 then (p.1, DType.dint) else p),
    rows := df.rows.map (fun r => r.map (fun p => if cs.contains p.1 then (p.1, Val.vint k) else p)) }

/-- Per-row extraction of a struct field into a new column. -/
def structFieldRow (src fieldName aliasName : String) (r : Row) : Except PyError Row :=
  match getVal r src with
  | some (.vstruct fs) =>
    match List.lookup fieldName fs with
    | some i => Except.ok (setEntry r aliasName (Val.vint i))
    | none => Except.error (.structFieldNotFound fieldName)
  | _ => Except.error (.structFieldNotFound fieldName)

/-- Model of `df.with_columns(col(src).struct.field(fieldName).alias(aliasName))`:
raises when the source column is absent, is not a struct, or lacks the field. -/
def withStructField (df : DF) (src fieldName aliasName : String) : Except PyError DF :=
  if df.colNames.contains src then
    match mapE (structFieldRow src fieldName aliasName) df.rows with
    | .error e => .error e
    | .ok rows => .ok { cols := setColEntry df.cols aliasName .dint, rows := rows }
  else .error (.columnNotFound src)

/-- Model of the chrono parser behind polars `str.strptime` restricted to
the one fixed format string that `main.py` uses.  Timestamps are minutes on
a single discrete axis; the encoding only needs to be a function of the
parsed components. -/
def strptimeMinutes (fmt s : String) : Option Int :=
  if fmt = "%m/%d/%Y %H:%M" then
    match s.splitOn " " with
    | [d, t] =>
      match d.splitOn "/", t.splitOn ":" with
      | [ms, ds, ys], [hs, mins] =>
        match ms.toNat?, ds.toNat?, ys.toNat?, hs.toNat?, mins.toNat? with
        | some mo, some da, some yr, some ho, some mi =>
          some (((((Int.ofNat yr) * 12 + mo) * 31 + da) * 24 + ho) * 60 + mi)
        | _, _, _, _, _ => none
      | _, _ => none
    | _ => none
  else none

/-- Parse one cell: timestamp cells must be strings that parse under the
format, other cells pass through. -/
def strptimeCell (fmt : String) (p : String × Val) : Except PyError (String × Val) :=
  if p.1 = "timestamp" then
    match p.2 with
    | .vstr s =>
      match strptimeMinutes fmt s with
      | some t => Except.ok (p.1, Val.vdt t)
      | none => Except.error (.computeError ("strptime failed on value " ++ s))
    | _ => Except.error (.computeError "strptime failed: timestamp cell is not a string")
  else Except.ok p

def strptimeRow (fmt : String) (r : Row) : Except PyError Row :=
  mapE (strptimeCell fmt) r

/-- Model of
`df.with_columns(col("timestamp").str.strptime(Datetime, format=fmt))`:
every timestamp cell must be a string that parses under `fmt`. -/
def strptimeCol (fmt : String) (df : DF) : Except PyError DF :=
  match mapE (strptimeRow fmt) df.rows with
  | .error e => .error e
  | .ok rows =>
    .ok { cols := df.cols.map (fun p => if p.1 = "timestamp" then (p.1, DType.ddatetime) else p),
          rows := rows }

/-- Lines 47-52 of `main.py`: when the timestamp column is not already of
Datetime dtype it is string-parsed with the fixed format `%m/%d/%Y %H:%M`.
Indexing a missing column raises the polars column-not-found error, and
running `.str.strptime` on a non-string column raises a schema error. -/
def normalizeTimestamp (df : DF) : Except PyError DF :=
  match dtypeOf df "timestamp" with
  | none => .error (.columnNotFound "timestamp")
  | some .ddatetime => .ok df
  | some .dstr => strptimeCol "%m/%d/%Y %H:%M" df
  | some _ => .error (.schemaError "timestamp column is neither Datetime nor string")

/-! ## Dataset ingestion (lines 29-45 of `main.py`) -/

/-- Modelled from the spec: the dataset loader exposes two tables joinable
on a shared event identifier.  `Dataset.load` itself is external; its
result is modelled as the already-loaded pair of frames. -/
structure DatasetSrc where
  events_df : DF
  dynamic_measurements_df : DF
deriving DecidableEq, Repr

/-- The event source argument of `query_task`: a dataset directory or an
in-memory data frame. -/
inductive DataInput where
  | path (ds : DatasetSrc)
  | frame (df : DF)
deriving DecidableEq, Repr

/-- Model of `df.filter(~all_horizontal(all().is_null()))`: keep rows with
at least one non-null value. -/
def nullFilter (df : DF) : DF :=
  { df with rows := df.rows.filter (fun r => !(r.all (fun p => p.2 == Val.vnull))) }

/-- Ordering on cell values used to model the polars sort. -/
def valRank : Val → Nat
  | .vnull => 0
  | .vint _ => 1
  | .vdt _ => 2
  | .vstr _ => 3
  | .vstruct _ => 4

def valLe : Val → Val → Bool
  | .vint a, .vint b => decide (a ≤ b)
  | .vdt a, .vdt b => decide (a ≤ b)
  | .vstr a, .vstr b => decide (a ≤ b)
  | a, b => decide (valRank a ≤ valRank b)

/-- Lexicographic comparison of two rows on a list of key columns. -/
def keyLe (ks : List String) (r1 r2 : Row) : Bool :=
  match ks with
  | [] => true
  | k :: rest =>
    let v1 := (getVal r1 k).getD .vnull
    let v2 := (getVal r2 k).getD .vnull
    if v1 == v2 then keyLe rest r1 r2 else valLe v1 v2

def insertSorted (le : Row → Row → Bool) (r : Row) : List Row → List Row
  | [] => [r]
  | x :: xs => if le r x then r :: x :: xs else x :: insertSorted le r xs

def sortRows (le : Row → Row → Bool) : List Row → List Row
  | [] => []
  | r :: rs => insertSorted le r (sortRows le rs)

/-- Model of `df.sort(by=ks)`. -/
def DF.sortBy (df : DF) (ks : List String) : DF :=
  { df with rows := sortRows (keyLe ks) df.rows }

/-- Model of `events.join(measurements, on="event_id", how="left")`
followed by `.drop(["event_id"])`. -/
def leftJoinDropEventId (l r : DF) : DF :=
  let rcols := r.cols.filter (fun p => p.1 != "event_id")
  { cols := l.cols.filter (fun p => p.1 != "event_id") ++ rcols,
    rows := (l.rows.map (fun lr =>
      let key := getVal lr "event_id"
      let ms := r.rows.filter (fun rr => getVal rr "event_id" == key)
      let lrd := lr.filter (fun p => p.1 != "event_id")
      match ms with
      | [] => [lrd ++ rcols.map (fun p => (p.1, Val.vnull))]
      | _ => ms.map (fun rr => lrd ++ rr.filter (fun p => p.1 != "event_id")))).foldr (· ++ ·) [] }

/-- Lines 29-45 of `main.py`: a dataset path is loaded, null-filtered,
joined and sorted; an in-memory frame is taken as is. -/
def ingest : DataInput → DF
  | .path ds =>
    let e := nullFilter ds.events_df
    let m := nullFilter ds.dynamic_measurements_df
    (leftJoinDropEventId e m).sortBy ["subject_id", "timestamp", "event_type"]
  | .frame df => df

/-- Ingestion followed by the timestamp normalization of lines 47-52. -/
def prepare (data : DataInput) : Except PyError DF :=
  normalizeTimestamp (ingest data)

/-! ## Configuration model and spec-modelled collaborators -/

/-- The trigger specification of the configuration: a start predicate name
or a list of include predicate names.  An empty list models an absent
(falsy) `includes` field. -/
structure TriggerSpec where
  start : String
  includes : List String
deriving DecidableEq, Repr

/-- Modelled from the spec: one configured predicate, evaluated per row as
equality of a source column against a value. -/
structure PredDef where
  name : String
  column : String
  value : Val
deriving DecidableEq, Repr

/-- Rule for the end boundary of a window: a duration offset, the next
occurrence of a predicate, or the end of the record. -/
inductive EndRule where
  | durationH (h : Int)
  | toPred (p : String)
  | endOfRecord
deriving DecidableEq, Repr

/-- One window of the configuration, in configuration order.  `parent`
names the window this one is anchored to (`"trigger"` for top-level
windows); `label` is the optional label-source predicate name. -/
structure WindowSpec where
  name : String
  parent : String
  offsetH : Int
  endRule : EndRule
  includes : List String
  excludes : List String
  label : Option String
deriving DecidableEq, Repr

/-- A parsed task configuration. -/
structure TaskConfig where
  trigger : TriggerSpec
  predicates : List PredDef
  windows : List WindowSpec
deriving DecidableEq, Repr

/-- A configuration file: either it parses to a configuration or the
loader raises some error. -/
inductive ConfigSource where
  | parsable (cfg : TaskConfig)
  | malformed (e : PyError)
deriving DecidableEq, Repr

/-- Modelled from the spec: the configuration loader `load(path) -> Config`
returns the typed configuration or raises on malformed input. -/
def load_config : ConfigSource → Except PyError TaskConfig
  | .parsable c => .ok c
  | .malformed e => .error e

/-- Modelled from the spec: the predicate generator appends one
`is_<name>` boolean column per configured predicate and fails if the
configured source column is absent from the events table. -/
def generate_predicate_columns (cfg : TaskConfig) (df : DF) : Except PyError DF :=
  foldE (fun acc p =>
    if acc.colNames.contains p.column then
      .ok { cols := acc.cols ++ [("is_" ++ p.name, DType.dint)],
            rows := acc.rows.map (fun r =>
              r ++ [("is_" ++ p.name, Val.vint (if getVal r p.column == some p.value then 1 else 0))]) }
    else .error (.configurationError ("predicate source column missing: " ++ p.column)))
    df cfg.predicates

/-- Diagnostic lines of the predicate generator; informational only. -/
def generate_predicate_logs (verbose : Bool) (cfg : TaskConfig) : List String :=
  if verbose then cfg.predicates.map (fun p => "Added predicate column is_" ++ p.name) else []

/-- The window tree: the validated windows of the configuration, walked
through their parent links from the root.  The root represents the trigger
event itself. -/
structure WTree where
  rootName : String
  windows : List WindowSpec
deriving DecidableEq, Repr

/-- Predicate names referenced by the boundary and constraint rules of a
window. -/
def refPreds (w : WindowSpec) : List String :=
  w.includes ++ w.excludes ++ (match w.endRule with | .toPred p => [p] | _ => [])

/-- Modelled from the spec: `build(config) -> WindowNode` validates that
window names are unique and that every referenced predicate exists, and
fails with a configuration error otherwise.  The tree itself is the
parent-linked window list rooted at the trigger. -/
def build_tree_from_config (cfg : TaskConfig) : Except PyError WTree :=
  if (cfg.windows.map WindowSpec.name).Nodup then
    match cfg.windows.find? (fun w =>
        (refPreds w).any (fun p => !((cfg.predicates.map PredDef.name).contains p))) with
    | some w => .error (.configurationError ("window " ++ w.name ++ " references a missing predicate"))
    | none => .ok { rootName := "trigger", windows := cfg.windows }
  else .error (.configurationError "duplicate window names in configuration")

/-- Preorder traversal of the windows below `parent`, fuelled by the
window count so that the recursion is structural. -/
def preorderFrom (ws : List WindowSpec) : Nat → String → List String
  | 0, _ => []
  | fuel + 1, parent =>
    ((ws.filter (fun w => w.parent == parent)).map
      (fun w => w.name :: preorderFrom ws fuel w.name)).foldr (· ++ ·) []

/-- The preorder node names of the tree, root first: the order of
`preorder_iter` in `main.py`. -/
def preorderNames (t : WTree) : List String :=
  t.rootName :: preorderFrom t.windows (t.windows.length + 1) t.rootName

/-! ## Trigger filtering (lines 82-124 of `main.py`) -/

/-- The trigger condition columns, lines 84-91: when the trigger declares
a non-empty (truthy) includes list, one condition per included predicate,
otherwise the single start-predicate condition. -/
def condColumns (cfg : TaskConfig) : List String :=
  if cfg.trigger.includes.isEmpty then ["is_" ++ cfg.trigger.start]
  else cfg.trigger.includes.map (fun p => "is_" ++ p)

/-- Distinct subject values of a frame, for the diagnostic drop report. -/
def distinctSubjects (df : DF) : Nat :=
  (df.rows.map (fun r => getVal r "subject_id")).dedup.length

/-- Diagnostic line reporting rows dropped by one trigger condition. -/
def droppedMsg (useIncludes : Bool) (cname : String) (dropped : DF) : String :=
  toString (distinctSubjects dropped) ++ " subjects (" ++ toString dropped.rows.length ++
    " rows) were excluded due to trigger " ++
    (if useIncludes then "condition: " else "event: ") ++ cname

/-- Lines 96-116 of `main.py`: apply the eagerly computed boolean masks
one after another to the progressively filtered frame, computing the
dropped rows first, and report drops when verbose. -/
def triggerLoop (verbose : Bool) (useIncludes : Bool) :
    List (String × List Bool) → DF → List String → Except PyError DF × List String
  | [], df, logs => (.ok df, logs)
  | (cname, mask) :: rest, df, logs =>
    match filterMask df (mask.map not) with
    | .error e => (.error e, logs)
    | .ok dropped =>
      match filterMask df mask with
      | .error e => (.error e, logs)
      | .ok kept =>
        let logs2 := logs ++
          (if verbose && decide (kept.rows.length < df.rows.length) then
            [droppedMsg useIncludes cname dropped] else [])
        triggerLoop verbose useIncludes rest kept logs2

/-- Lines 82-124 of `main.py`: compute the trigger condition masks against
the full predicate-annotated frame, run the filter loop, then keep only
subject, timestamp and predicate columns with every predicate accumulator
set to the literal 0. -/
def build_anchor (cfg : TaskConfig) (esd : DF) (verbose : Bool) :
    Except PyError DF × List String :=
  match mapE (seriesEqOne esd) (condColumns cfg) with
  | .error e => (.error e, [])
  | .ok masks =>
    let tl := triggerLoop verbose (!cfg.trigger.includes.isEmpty)
      ((condColumns cfg).zip masks) esd []
    match tl.1 with
    | .error e => (.error e, tl.2)
    | .ok a =>
      let pcols := esd.colNames.filter (fun c => strStartsWith c "is_")
      match a.select (["subject_id", "timestamp"] ++ pcols) with
      | .error e => (.error e, tl.2)
      | .ok sel => (.ok (sel.setConstInt pcols 0), tl.2)

/-! ## The window-tree engine (spec-modelled `query_subtree`) -/

/-- Typed view of one event row used inside the engine. -/
structure Ev where
  subject : Int
  ts : Int
  preds : List (String × Int)
deriving DecidableEq, Repr

def getIntVal : Option Val → Int
  | some (.vint i) => i
  | _ => 0

def getDtVal : Option Val → Int
  | some (.vdt t) => t
  | some (.vint i) => i
  | _ => 0

/-- Typed view of a predicate-annotated frame. -/
def toEvents (df : DF) : List Ev :=
  let pcols := df.colNames.filter (fun c => strStartsWith c "is_")
  df.rows.map (fun r =>
    { subject := getIntVal (getVal r "subject_id"),
      ts := getDtVal (getVal r "timestamp"),
      preds := pcols.map (fun c => (c, getIntVal (getVal r c))) })

def subjectEvents (events : List Ev) (s : Int) : List Ev :=
  events.filter (fun e => e.subject == s)

/-- Earliest event timestamp at or after `fromTs` where predicate `p`
holds for subject `s`. -/
def nextPredTs (events : List Ev) (s : Int) (p : String) (fromTs : Int) : Option Int :=
  ((subjectEvents events s).filter
      (fun e => decide (fromTs ≤ e.ts) && (List.lookup ("is_" ++ p) e.preds == some 1))).foldl
    (fun acc e => match acc with | none => some e.ts | some t => some (min t e.ts)) none

/-- One resolved window instance: subject, root anchor key, resolved end
boundary and predicate summary. -/
structure Resolved where
  subject : Int
  rootTs : Int
  endTs : Int
  summary : List (String × Int)
deriving DecidableEq, Repr

/-- Resolve the end boundary of a window from its start. -/
def resolveEnd (events : List Ev) (w : WindowSpec) (s startTs : Int) : Option Int :=
  match w.endRule with
  | .durationH h => some (startTs + h * 60)
  | .toPred p => nextPredTs events s p startTs
  | .endOfRecord =>
    match (subjectEvents events s).map Ev.ts with
    | [] => none
    | t :: ts => some (ts.foldl max t + 1)

/-- Predicate counts over the half-open interval `[a, b)` for subject `s`. -/
def windowSummary (events : List Ev) (pcols : List String) (s a b : Int) :
    List (String × Int) :=
  let iv := (subjectEvents events s).filter (fun e => decide (a ≤ e.ts) && decide (e.ts < b))
  pcols.map (fun c => (c, Int.ofNat (iv.countP (fun e => List.lookup c e.preds == some 1))))

/-- Include constraints demand at least one occurrence; exclude
constraints demand none. -/
def passesConstraints (w : WindowSpec) (summary : List (String × Int)) : Bool :=
  w.includes.all (fun p => decide (1 ≤ ((List.lookup ("is_" ++ p) summary).getD 0))) &&
  w.excludes.all (fun p => ((List.lookup ("is_" ++ p) summary).getD 0) == 0)

/-- Resolve one anchor instance against one window, or drop it. -/
def resolveAnchor (events : List Ev) (pcols : List String) (w : WindowSpec) :
    Int × Int × Int → Option Resolved
  | (s, rk, a) =>
    let startTs := a + w.offsetH * 60
    match resolveEnd events w s startTs with
    | none => none
    | some b =>
      let summary := windowSummary events pcols s startTs b
      if passesConstraints w summary then some ⟨s, rk, b, summary⟩ else none

/-- Result of evaluating one subtree: its namespaced columns and its rows
keyed by (subject, root anchor timestamp). -/
structure NodeRes where
  cols : List (String × DType)
  rows : List ((Int × Int) × Row)
deriving DecidableEq, Repr

/-- Fields a child subtree contributes for a key, nulls when the key was
pruned inside that subtree. -/
def childFieldsFor (cr : NodeRes) (k : Int × Int) : Row :=
  match List.lookup k cr.rows with
  | some r => r
  | none => cr.cols.map (fun p => (p.1, Val.vnull))

/-- Modelled from the spec: the recursive evaluation of every window below
`parent`.  Each window resolves its boundaries per anchor row, summarizes
predicate occurrences over its half-open interval, drops anchors violating
include or exclude constraints, recurses into its children anchored at its
resolved end boundary, and keeps a row only when every child subtree kept
it.  Fuelled by the window count so the recursion is structural. -/
def evalChildren (evs : List Ev) (pcols : List String) (ws : List WindowSpec) :
    Nat → String → List (Int × Int × Int) → List NodeRes
  | 0, _, _ => []
  | fuel + 1, parent, anchors =>
    (ws.filter (fun w => w.parent == parent)).map (fun w =>
      let surv := anchors.filterMap (resolveAnchor evs pcols w)
      let crs := evalChildren evs pcols ws fuel w.name
        (surv.map (fun x => (x.subject, x.rootTs, x.endTs)))
      { cols := (w.name ++ "/timestamp", DType.ddatetime) ::
          (w.name ++ "/window_summary", DType.dstruct) ::
          (crs.map NodeRes.cols).foldr (· ++ ·) [],
        rows := (surv.filter (fun x =>
            crs.all (fun cr => (List.lookup (x.subject, x.rootTs) cr.rows).isSome))).map
          (fun x => ((x.subject, x.rootTs),
            (w.name ++ "/timestamp", Val.vdt x.endTs) ::
              (w.name ++ "/window_summary", Val.vstruct x.summary) ::
              (crs.map (fun cr => childFieldsFor cr (x.subject, x.rootTs))).foldr (· ++ ·) [])) })

/-- All predicate names referenced by the boundary and constraint rules of
the tree. -/
def treeRefPreds (t : WTree) : List String :=
  (t.windows.map refPreds).foldr (· ++ ·) []

/-- Modelled from the spec: the engine `query_subtree`.  It fails with an
EmptyResultError when the root trigger filter dropped every row, fails
with a ConfigurationError, before any recursion begins, when a window rule
references a predicate absent from the predicate columns of the event
table, and otherwise returns one row per surviving root anchor instance
carrying every descendant window resolved timestamp and summary.  The
verbose flag gates diagnostic lines only. -/
def query_subtree (t : WTree) (anchors : DF) (events : DF) (anchorOffsetH : Int)
    (verbose : Bool) : Except PyError DF × List String :=
  if anchors.rows.isEmpty then
    (.error (.emptyResultError "trigger filtering eliminated all rows"),
      if verbose then ["No rows left after trigger filtering."] else [])
  else
    let pcols := events.colNames.filter (fun c => strStartsWith c "is_")
    match (treeRefPreds t).find? (fun p => !(pcols.contains ("is_" ++ p))) with
    | some p =>
      (.error (.configurationError ("predicate " ++ p ++ " not found among predicate columns")), [])
    | none =>
      let evs := toEvents events
      let roots := (toEvents anchors).map (fun e => (e.subject, e.ts, e.ts + anchorOffsetH * 60))
      let crs := evalChildren evs pcols t.windows (t.windows.length + 1) t.rootName roots
      let keep := roots.filter (fun x =>
        crs.all (fun cr => (List.lookup (x.1, x.2.1) cr.rows).isSome))
      (.ok { cols := ("subject_id", DType.dint) :: ("timestamp", DType.ddatetime) ::
               (crs.map NodeRes.cols).foldr (· ++ ·) [],
             rows := keep.map (fun x =>
               ("subject_id", Val.vint x.1) :: ("timestamp", Val.vdt x.2.1) ::
                 (crs.map (fun cr => childFieldsFor cr (x.1, x.2.1))).foldr (· ++ ·) []) },
       if verbose then ["Summarizing windows."] else [])

/-! ## Result assembly and label extraction (lines 140-163 of `main.py`) -/

/-- Lines 140-147 of `main.py`: select subject, root timestamp and the
namespaced per-node columns in preorder, then rename the root timestamp
column. -/
def assemble (t : WTree) (res : DF) : Except PyError DF :=
  let tailNames := (preorderNames t).tail
  match res.select (["subject_id", "timestamp"] ++
      tailNames.map (fun n => n ++ "/timestamp") ++
      tailNames.map (fun n => n ++ "/window_summary")) with
  | .error e => .error e
  | .ok sel => .ok (sel.renameCol "timestamp" (t.rootName ++ "/timestamp"))

/-- Python truthiness of the `label` field: present and a non-empty
string. -/
def isLabelTruthy (w : WindowSpec) : Bool :=
  match w.label with
  | some p => !(p == "")
  | none => false

/-- Lines 149-154 of `main.py`: the first window in configuration order
with a truthy label field, chosen by a loop with a break. -/
def findLabelWindow (cfg : TaskConfig) : Option WindowSpec :=
  cfg.windows.find? isLabelTruthy

/-- Lines 149-163 of `main.py`: when a label window exists, append a
`label` column extracted from the `is_<predicate>` field of its window
summary struct. -/
def extract_label (cfg : TaskConfig) (res : DF) : Except PyError DF :=
  match findLabelWindow cfg with
  | none => .ok res
  | some w =>
    match w.label with
    | some p => withStructField res (w.name ++ "/window_summary") ("is_" ++ p) "label"
    | none => .ok res

/-! ## The entry point `query_task` -/

/-- The embedding of `query_task(cfg_path, data, verbose)`.  It returns
the result of the query together with the diagnostic lines printed along
the way; an error return models a raised exception.  The statement order
follows `main.py`: ingestion, timestamp normalization, the empty and
required-column checks, configuration loading (not wrapped), predicate
generation (wrapped on failure), tree building, trigger filtering, the
engine call, result assembly and label extraction. -/
def query_task (cfg_path : ConfigSource) (data : DataInput) (verbose : Bool) :
    Except PyError DF × List String :=
  match prepare data with
  | .error e => (.error e, [])
  | .ok d =>
    if d.rows.length = 0 then (.error (.valueError emptyMsg), [])
    else if "timestamp" ∉ d.colNames then (.error (.valueError tsMissingMsg), [])
    else if "subject_id" ∉ d.colNames then (.error (.valueError sidMissingMsg), [])
    else
      let log0 : List String := if verbose then ["Loading config..."] else []
      match load_config cfg_path with
      | .error e => (.error e, log0)
      | .ok cfg =>
        let log1 := log0 ++ (if verbose then ["Generating predicate columns..."] else [])
        match generate_predicate_columns cfg d with
        | .error e => (.error (.wrapped genWrapMsg e), log1)
        | .ok d2 =>
          let log2 := log1 ++ generate_predicate_logs verbose cfg
          match build_tree_from_config cfg with
          | .error e => (.error e, log2)
          | .ok tree =>
            let log3 := log2 ++ (if verbose then ["Building tree..."] else [])
            match (build_anchor cfg d2 verbose).1 with
            | .error e => (.error e, log3 ++ (build_anchor cfg d2 verbose).2)
            | .ok anchor =>
              let log4 := log3 ++ (build_anchor cfg d2 verbose).2
              match (query_subtree tree anchor d2 0 verbose).1 with
              | .error e => (.error e, log4 ++ (query_subtree tree anchor d2 0 verbose).2)
              | .ok res =>
                let log5 := log4 ++ (query_subtree tree anchor d2 0 verbose).2
                match assemble tree res with
                | .error e => (.error e, log5)
                | .ok asm =>
                  match extract_label cfg asm with
                  | .error e => (.error e, log5)
                  | .ok final => (.ok final, log5 ++ (if verbose then ["Done."] else []))

/-- The result component of `query_task`, as called with the default
verbosity of the source. -/
def query_task_res (cfg_path : ConfigSource) (data : DataInput) : Except PyError DF :=
  (query_task cfg_path data true).1

def isOkE : Except PyError DF → Bool
  | .ok _ => true
  | .error _ => false

def isWrapped : PyError → Bool
  | .wrapped _ _ => true
  | _ => false

/-- True when the error names the given column: the polars
column-not-found error for that column, or a ValueError whose message
mentions it. -/
def containsSubAux (needle : List Char) : List Char → Bool
  | [] => needle.isPrefixOf []
  | c :: t => needle.isPrefixOf (c :: t) || containsSubAux needle t

def strContains (hay needle : String) : Bool := containsSubAux needle.toList hay.toList

def identifiesColumn : PyError → String → Bool
  | .columnNotFound c, col => c == col
  | .valueError m, col => strContains m col
  | _, _ => false

/-- The `label` field of the struct in column `c` of row `r`. -/
def getStructField (r : Row) (c f : String) : Option Val :=
  match getVal r c with
  | some (.vstruct fs) => (List.lookup f fs).map Val.vint
  | _ => none

/-- The column layout produced by the result assembler. -/
def assembledCols (t : WTree) : List String :=
  "subject_id" :: (t.rootName ++ "/timestamp") ::
    ((preorderNames t).tail.map (fun n => n ++ "/timestamp") ++
     (preorderNames t).tail.map (fun n => n ++ "/window_summary"))

/-! ## Concrete instances used to exercise the pipeline -/

/-- Event table for the multi-include trigger scenario: row 1 satisfies
only predicate B, row 2 satisfies both A and B. -/
def dfC1 : DF :=
  { cols := [("subject_id", .dint), ("timestamp", .ddatetime), ("cA", .dint), ("cB", .dint)],
    rows := [
      [("subject_id", .vint 1), ("timestamp", .vdt 0), ("cA", .vint 0), ("cB", .vint 1)],
      [("subject_id", .vint 1), ("timestamp", .vdt 60), ("cA", .vint 1), ("cB", .vint 1)]] }

/-- Configuration whose trigger declares the includes list [A, B]. -/
def cfgC1 : TaskConfig :=
  { trigger := { start := "A", includes := ["A", "B"] },
    predicates := [⟨"A", "cA", .vint 1⟩, ⟨"B", "cB", .vint 1⟩],
    windows := [] }

/-- One-row event table whose single event does not satisfy predicate P. -/
def dfC2 : DF :=
  { cols := [("subject_id", .dint), ("timestamp", .ddatetime), ("code", .dint)],
    rows := [[("subject_id", .vint 1), ("timestamp", .vdt 0), ("code", .vint 1)]] }

/-- Configuration triggering on the never-satisfied predicate P. -/
def cfgC2 : TaskConfig :=
  { trigger := { start := "P", includes := [] },
    predicates := [⟨"P", "code", .vint 5⟩],
    windows := [] }

/-- The predicate-annotated form of `dfC2`. -/
def dfC2gen : DF :=
  { cols := [("subject_id", .dint), ("timestamp", .ddatetime), ("code", .dint), ("is_P", .dint)],
    rows := [[("subject_id", .vint 1), ("timestamp", .vdt 0), ("code", .vint 1),
      ("is_P", .vint 0)]] }

/-- The empty anchor set produced from `dfC2` by the trigger filter. -/
def anchorC2 : DF :=
  { cols := [("subject_id", .dint), ("timestamp", .ddatetime), ("is_P", .dint)], rows := [] }

/-- The window tree of a configuration without windows. -/
def treeEmpty : WTree := { rootName := "trigger", windows := [] }

/-- An empty event table that still has a well-typed timestamp column. -/
def dfEmpty : DF :=
  { cols := [("subject_id", .dint), ("timestamp", .ddatetime), ("code", .dint)], rows := [] }

/-- An empty event table with a timestamp column but no subject_id column. -/
def dfC4 : DF := { cols := [("timestamp", .ddatetime), ("code", .dint)], rows := [] }

/-- A one-row event table without a timestamp column. -/
def dfC4a : DF := { cols := [("subject_id", .dint)], rows := [[("subject_id", .vint 1)]] }

/-- A one-row event table with a Datetime timestamp but no subject_id. -/
def dfC4b : DF :=
  { cols := [("timestamp", .ddatetime), ("code", .dint)],
    rows := [[("timestamp", .vdt 0), ("code", .vint 1)]] }

/-- Event table for the two-label scenario: a trigger event at t = 0 and a
label-predicate event at t = 60. -/
def dfC7 : DF :=
  { cols := [("subject_id", .dint), ("timestamp", .ddatetime), ("code", .dint)],
    rows := [
      [("subject_id", .vint 1), ("timestamp", .vdt 0), ("code", .vint 1)],
      [("subject_id", .vint 1), ("timestamp", .vdt 60), ("code", .vint 2)]] }

/-- Configuration in which both windows carry the label flag. -/
def cfgC7 : TaskConfig :=
  { trigger := { start := "t", includes := [] },
    predicates := [⟨"t", "code", .vint 1⟩, ⟨"x", "code", .vint 2⟩],
    windows := [
      ⟨"w1", "trigger", 0, .durationH 24, [], [], some "x"⟩,
      ⟨"w2", "trigger", 0, .durationH 24, [], [], some "x"⟩] }

/-- A minimal well-formed one-row event table. -/
def dfOneRow : DF :=
  { cols := [("subject_id", .dint), ("timestamp", .ddatetime)],
    rows := [[("subject_id", .vint 1), ("timestamp", .vdt 0)]] }

/-- Configuration whose single predicate references a missing source
column. -/
def cfgBadPred : TaskConfig :=
  { trigger := { start := "t", includes := [] },
    predicates := [⟨"q", "missing_col", .vint 1⟩],
    windows := [] }

/-- A one-window tree. -/
def treeOneWin : WTree :=
  { rootName := "trigger", windows := [⟨"w", "trigger", 0, .durationH 1, [], [], none⟩] }

/-- An engine-shaped result table for the one-window tree, without rows. -/
def resOneWin : DF :=
  { cols := [("subject_id", .dint), ("timestamp", .ddatetime),
      ("w/timestamp", .ddatetime), ("w/window_summary", .dstruct)],
    rows := [] }

/-- Configuration with a single labeled window `w` over predicate `x`. -/
def cfgC6 : TaskConfig :=
  { trigger := { start := "t", includes := [] },
    predicates := [],
    windows := [⟨"w", "trigger", 0, .durationH 1, [], [], some "x"⟩] }

/-- A one-row result table carrying a window summary struct for `w`. -/
def resC6 : DF :=
  { cols := [("w/window_summary", .dstruct)],
    rows := [[("w/window_summary", .vstruct [("is_x", 1)])]] }

/-- A one-row table whose timestamp column is a string column. -/
def dfStrTs : DF :=
  { cols := [("subject_id", .dint), ("timestamp", .dstr)],
    rows := [[("subject_id", .vint 1), ("timestamp", .vstr "01/02/2003 04:05")]] }

/-- The error kind of a pipeline outcome. -/
def kindOfRes : Except PyError DF → ErrorKind
  | .error e => kindOf e
  | .ok _ => .other

/-- The assembler output for the one-window tree over `resOneWin`. -/
def asmOneWin : DF :=
  { cols := [("subject_id", .dint), ("trigger/timestamp", .ddatetime),
      ("w/timestamp", .ddatetime), ("w/window_summary", .dstruct)],
    rows := [] }

/-- The labeled window of `cfgC6`. -/
def wLabeled : WindowSpec := ⟨"w", "trigger", 0, .durationH 1, [], [], some "x"⟩

/-- Label extraction output for `cfgC6` over `resC6`. -/
def outC6 : DF :=
  { cols := [("w/window_summary", .dstruct), ("label", .dint)],
    rows := [[("w/window_summary", .vstruct [("is_x", 1)]), ("label", .vint 1)]] }

/-- The single row of `outC6`. -/
def rowC6 : Row := [("w/window_summary", Val.vstruct [("is_x", 1)]), ("label", Val.vint 1)]

/-- A window without a label flag. -/
def wNoLabel : WindowSpec := ⟨"a", "trigger", 0, .durationH 1, [], [], none⟩

/-- First labeled window. -/
def wLab1 : WindowSpec := ⟨"w1", "trigger", 0, .durationH 24, [], [], some "x"⟩

/-- Second labeled window. -/
def wLab2 : WindowSpec := ⟨"w2", "trigger", 0, .durationH 24, [], [], some "x"⟩

/-- Configuration listing an unlabeled window before two labeled ones. -/
def cfgThreeWins : TaskConfig :=
  { trigger := { start := "t", includes := [] },
    predicates := [],
    windows := [wNoLabel, wLab1, wLab2] }

/-! ## Helper lemmas -/

theorem mapE_ok_length (f : α → Except PyError β) :
    ∀ (l : List α) (l2 : List β), mapE f l = .ok l2 → l2.length = l.length := by
  intro l
  induction l with
  | nil =>
    intro l2 h
    simp only [mapE] at h
    cases h
    rfl
  | cons a t ih =>
    intro l2 h
    unfold mapE at h
    cases hfa : f a with
    | error e => rw [hfa] at h; exact absurd h (by simp)
    | ok b =>
      rw [hfa] at h
      cases hm : mapE f t with
      | error e => rw [hm] at h; exact absurd h (by simp)
      | ok bs =>
        rw [hm] at h
        cases h
        simp [ih bs hm]

theorem mapE_error_mem (f : α → Except PyError β) :
    ∀ (l : List α) (e : PyError), mapE f l = .error e → ∃ a ∈ l, f a = .error e := by
  intro l
  induction l with
  | nil => intro e h; simp only [mapE] at h; exact absurd h (by simp)
  | cons a t ih =>
    intro e h
    unfold mapE at h
    cases hfa : f a with
    | error e2 =>
      rw [hfa] at h
      cases h
      exact ⟨a, List.mem_cons_self a t, hfa⟩
    | ok b =>
      rw [hfa] at h
      cases hm : mapE f t with
      | error e2 =>
        rw [hm] at h
        cases h
        obtain ⟨x, hx, hfx⟩ := ih e hm
        exact ⟨x, List.mem_cons_of_mem a hx, hfx⟩
      | ok bs => rw [hm] at h; exact absurd h (by simp)

theorem mapE_ok_mem (f : α → Except PyError β) :
    ∀ (l : List α) (l2 : List β), mapE f l = .ok l2 →
      ∀ b ∈ l2, ∃ a ∈ l, f a = .ok b := by
  intro l
  induction l with
  | nil =>
    intro l2 h b hb
    simp only [mapE] at h
    cases h
    exact absurd hb (by simp)
  | cons a t ih =>
    intro l2 h b hb
    unfold mapE at h
    cases hfa : f a with
    | error e => rw [hfa] at h; exact absurd h (by simp)
    | ok b0 =>
      rw [hfa] at h
      cases hm : mapE f t with
      | error e => rw [hm] at h; exact absurd h (by simp)
      | ok bs =>
        rw [hm] at h
        cases h
        rcases List.mem_cons.mp hb with hb0 | hbs
        · exact ⟨a, List.mem_cons_self a t, hb0 ▸ hfa⟩
        · obtain ⟨x, hx, hfx⟩ := ih bs hm b hbs
          exact ⟨x, List.mem_cons_of_mem a hx, hfx⟩

theorem strptimeCell_error_kind (fmt : String) (p : String × Val) (e : PyError)
    (h : strptimeCell fmt p = .error e) : kindOf e = .input := by
  unfold strptimeCell at h
  split at h
  · split at h
    · split at h
      · exact absurd h (by simp)
      · cases h; rfl
    · cases h; rfl
  · exact absurd h (by simp)

theorem strptimeRow_error_kind (fmt : String) (r : Row) (e : PyError)
    (h : strptimeRow fmt r = .error e) : kindOf e = .input := by
  obtain ⟨p, _, hp⟩ := mapE_error_mem (strptimeCell fmt) r e h
  exact strptimeCell_error_kind fmt p e hp

theorem strptimeCol_error_kind (fmt : String) (df : DF) (e : PyError)
    (h : strptimeCol fmt df = .error e) : kindOf e = .input := by
  unfold strptimeCol at h
  cases hm : mapE (strptimeRow fmt) df.rows with
  | error e2 =>
    rw [hm] at h
    cases h
    obtain ⟨r, _, hr⟩ := mapE_error_mem (strptimeRow fmt) df.rows e hm
    exact strptimeRow_error_kind fmt r e hr
  | ok rows => rw [hm] at h; exact absurd h (by simp)

theorem normalizeTimestamp_error_kind (df : DF) (e : PyError)
    (h : normalizeTimestamp df = .error e) : kindOf e = .input := by
  unfold normalizeTimestamp at h
  cases hdt : dtypeOf df "timestamp" with
  | none => rw [hdt] at h; cases h; decide
  | some t =>
    rw [hdt] at h
    cases t with
    | dint => cases h; rfl
    | dstr => exact strptimeCol_error_kind _ df e h
    | ddatetime => exact absurd h (by simp)
    | dstruct => cases h; rfl

theorem normalizeTimestamp_ok_length (df d2 : DF)
    (h : normalizeTimestamp df = .ok d2) : d2.rows.length = df.rows.length := by
  unfold normalizeTimestamp at h
  cases hdt : dtypeOf df "timestamp" with
  | none => rw [hdt] at h; exact absurd h (by simp)
  | some t =>
    rw [hdt] at h
    cases t with
    | dint => exact absurd h (by simp)
    | dstruct => exact absurd h (by simp)
    | ddatetime => cases h; rfl
    | dstr =>
      unfold strptimeCol at h
      cases hm : mapE (strptimeRow "%m/%d/%Y %H:%M") df.rows with
      | error e => rw [hm] at h; exact absurd h (by simp)
      | ok rows =>
        rw [hm] at h
        cases h
        exact mapE_ok_length _ df.rows rows hm

theorem lookup_setEntry_same (k : String) (v : Val) :
    ∀ r : Row, getVal (setEntry r k v) k = some v := by
  intro r
  induction r with
  | nil =>
    show List.lookup k ((k, v) :: []) = some v
    rw [List.lookup_cons, show (k == k) = true from beq_self_eq_true k]
  | cons p t ih =>
    obtain ⟨k1, v1⟩ := p
    simp only [setEntry, getVal] at ih ⊢
    by_cases h : k1 = k
    · rw [if_pos h]
      rw [List.lookup_cons, show (k == k) = true from beq_self_eq_true k]
    · rw [if_neg h]
      rw [List.lookup_cons, show (k == k1) = false from beq_eq_false_iff_ne.mpr (Ne.symm h)]
      exact ih

theorem lookup_setEntry_other (k k2 : String) (v : Val) (hne : k2 ≠ k) :
    ∀ r : Row, getVal (setEntry r k v) k2 = getVal r k2 := by
  intro r
  induction r with
  | nil =>
    show List.lookup k2 ((k, v) :: []) = List.lookup k2 []
    rw [List.lookup_cons, show (k2 == k) = false from beq_eq_false_iff_ne.mpr hne]
  | cons p t ih =>
    obtain ⟨k1, v1⟩ := p
    simp only [setEntry, getVal] at ih ⊢
    by_cases h : k1 = k
    · rw [if_pos h]
      rw [List.lookup_cons, List.lookup_cons,
        show (k2 == k) = false from beq_eq_false_iff_ne.mpr hne,
        show (k2 == k1) = false from beq_eq_false_iff_ne.mpr (fun hk => hne (hk.trans h))]
    · rw [if_neg h]
      rw [List.lookup_cons, List.lookup_cons]
      by_cases h2 : k2 = k1
      · rw [show (k2 == k1) = true from beq_iff_eq.mpr h2]
      · rw [show (k2 == k1) = false from beq_eq_false_iff_ne.mpr h2]
        exact ih

theorem structFieldRow_ok (src fieldName aliasName : String) (r r2 : Row)
    (h : structFieldRow src fieldName aliasName r = .ok r2) :
    ∃ fs i, getVal r src = some (.vstruct fs) ∧ List.lookup fieldName fs = some i ∧
      r2 = setEntry r aliasName (Val.vint i) := by
  unfold structFieldRow at h
  cases hv : getVal r src with
  | none => simp only [hv] at h; exact absurd h (by simp)
  | some v =>
    cases v with
    | vstruct fs =>
      simp only [hv] at h
      cases hf : List.lookup fieldName fs with
      | none => simp only [hf] at h; exact absurd h (by simp)
      | some i =>
        simp only [hf] at h
        cases h
        exact ⟨fs, i, rfl, hf, rfl⟩
    | vint i => simp only [hv] at h; exact absurd h (by simp)
    | vstr s => simp only [hv] at h; exact absurd h (by simp)
    | vdt t => simp only [hv] at h; exact absurd h (by simp)
    | vnull => simp only [hv] at h; exact absurd h (by simp)

theorem select_ok_colNames (df : DF) (names : List String) (out : DF)
    (h : df.select names = .ok out) : out.colNames = names := by
  unfold DF.select at h
  cases hf : names.find? (fun n => !(df.colNames.contains n)) with
  | some n => rw [hf] at h; exact absurd h (by simp)
  | none =>
    rw [hf] at h
    cases h
    simp [DF.colNames, List.map_map, Function.comp_def]

theorem renameCol_colNames (df : DF) (o n : String) :
    (df.renameCol o n).colNames = df.colNames.map (fun s => if s = o then n else s) := by
  simp only [DF.renameCol, DF.colNames, List.map_map]
  induction df.cols with
  | nil => rfl
  | cons p t ih =>
    simp only [List.map_cons, ih, Function.comp]
    by_cases h : p.1 = o
    · simp [h]
    · simp [h]

theorem map_if_eq_self (l : List String) (f : String → String) (R : String)
    (h : ∀ x, f x ≠ "timestamp") :
    (l.map f).map (fun s => if s = "timestamp" then R else s) = l.map f := by
  induction l with
  | nil => rfl
  | cons a t ih => simp [h a, ih]

theorem append_ts_ne_timestamp (x : String) : x ++ "/timestamp" ≠ "timestamp" := by
  intro h
  have hl := congrArg String.length h
  rw [String.length_append] at hl
  rw [show ("/timestamp" : String).length = 10 from rfl,
    show ("timestamp" : String).length = 9 from rfl] at hl
  omega

theorem append_ws_ne_timestamp (x : String) : x ++ "/window_summary" ≠ "timestamp" := by
  intro h
  have hl := congrArg String.length h
  rw [String.length_append] at hl
  rw [show ("/window_summary" : String).length = 15 from rfl,
    show ("timestamp" : String).length = 9 from rfl] at hl
  omega

theorem append_ws_ne_label (x : String) : x ++ "/window_summary" ≠ "label" := by
  intro h
  have hl := congrArg String.length h
  rw [String.length_append] at hl
  rw [show ("/window_summary" : String).length = 15 from rfl,
    show ("label" : String).length = 5 from rfl] at hl
  omega

theorem lookup_some_mem_keys (c : String) (t : DType) :
    ∀ l : List (String × DType), List.lookup c l = some t → c ∈ l.map Prod.fst := by
  intro l
  induction l with
  | nil => intro h; exact absurd h (by simp [List.lookup])
  | cons p tl ih =>
    obtain ⟨k, dt⟩ := p
    intro h
    rw [List.lookup_cons] at h
    by_cases hk : c = k
    · simp [hk]
    · rw [show (c == k) = false from beq_eq_false_iff_ne.mpr hk] at h
      simp [ih h]

theorem dtypeOf_some_mem (df : DF) (c : String) (t : DType)
    (h : dtypeOf df c = some t) : c ∈ df.colNames :=
  lookup_some_mem_keys c t df.cols h

theorem triggerLoop_fst (v v2 u : Bool) :
    ∀ (conds : List (String × List Bool)) (df : DF) (l l2 : List String),
      (triggerLoop v u conds df l).1 = (triggerLoop v2 u conds df l2).1 := by
  intro conds
  induction conds with
  | nil => intro df l l2; rfl
  | cons c rest ih =>
    intro df l l2
    obtain ⟨cname, mask⟩ := c
    unfold triggerLoop
    cases filterMask df (mask.map not) with
    | error e => rfl
    | ok dropped =>
      cases filterMask df mask with
      | error e => rfl
      | ok kept => exact ih kept _ _

theorem build_anchor_fst (cfg : TaskConfig) (df : DF) (v v2 : Bool) :
    (build_anchor cfg df v).1 = (build_anchor cfg df v2).1 := by
  simp only [build_anchor]
  cases mapE (seriesEqOne df) (condColumns cfg) with
  | error e => rfl
  | ok masks =>
    simp only
    rw [triggerLoop_fst v v2 (!cfg.trigger.includes.isEmpty)
      ((condColumns cfg).zip masks) df [] []]
    cases (triggerLoop v2 (!cfg.trigger.includes.isEmpty)
        ((condColumns cfg).zip masks) df []).1 with
    | error e => rfl
    | ok a =>
      simp only
      cases a.select (["subject_id", "timestamp"] ++
          df.colNames.filter (fun c => strStartsWith c "is_")) with
      | error e => rfl
      | ok sel => rfl

theorem query_subtree_fst (t : WTree) (a ev : DF) (o : Int) (v v2 : Bool) :
    (query_subtree t a ev o v).1 = (query_subtree t a ev o v2).1 := by
  simp only [query_subtree]
  split
  · rfl
  · split <;> rfl

/-! ## Claim theorems -/

/-- C1 (code bug): the claim says the initial anchor set holds one zeroed
row per event satisfying every included trigger predicate; the drop
reporting of `main.py` even anticipates successive include conditions each
dropping rows.  But the boolean masks are computed once against the full
frame and then applied inside the loop to the already filtered, shorter
frame, so on a two-row table whose first row fails the first of two
include conditions the second filter raises a polars shape error (mask of
length 2 against a 1-row frame) instead of producing the single
qualifying anchor row. -/
theorem trigger_filter_mask_shape_bug :
    query_task_res (.parsable cfgC1) (.frame dfC1) = .error (.shapeError 2 1) := rfl

/-- C2: when the trigger filtering step completes and leaves no anchor
rows, `query_task` fails with an EmptyResultError-kind error instead of
returning an empty result table; the engine raising it is modelled from
the spec. -/
theorem empty_anchor_set_raises_empty_result
    (c : ConfigSource) (data : DataInput) (d d2 a : DF) (cfg : TaskConfig) (tree : WTree)
    (hp : prepare data = .ok d)
    (h0 : d.rows.length ≠ 0)
    (h1 : "timestamp" ∈ d.colNames)
    (h2 : "subject_id" ∈ d.colNames)
    (hl : load_config c = .ok cfg)
    (hg : generate_predicate_columns cfg d = .ok d2)
    (ht : build_tree_from_config cfg = .ok tree)
    (hb : (build_anchor cfg d2 true).1 = .ok a)
    (he : a.rows = []) :
    query_task_res c data =
      .error (.emptyResultError "trigger filtering eliminated all rows") ∧
    kindOf (.emptyResultError "trigger filtering eliminated all rows") = .emptyResult := by
  refine ⟨?_, rfl⟩
  unfold query_task_res query_task
  simp only [hp, hl, hg, ht, hb]
  rw [if_neg h0, if_neg (not_not_intro h1), if_neg (not_not_intro h2)]
  simp [query_subtree, he]

/-- C2 witness: a trigger predicate that never fires. -/
theorem empty_anchor_set_raises_empty_result_witness :
    query_task_res (.parsable cfgC2) (.frame dfC2) =
      .error (.emptyResultError "trigger filtering eliminated all rows") :=
  (empty_anchor_set_raises_empty_result (.parsable cfgC2) (.frame dfC2) dfC2 dfC2gen
    anchorC2 cfgC2 treeEmpty rfl (by decide) (by decide) (by decide) rfl rfl rfl rfl rfl).1

/-- C3: an event table that is empty after ingestion makes `query_task`
raise an input-kind error; it never returns a result table. -/
theorem empty_events_raise_input_error (c : ConfigSource) (data : DataInput)
    (he : (ingest data).rows = []) :
    isOkE (query_task_res c data) = false ∧ kindOfRes (query_task_res c data) = .input := by
  unfold query_task_res query_task prepare
  cases hn : normalizeTimestamp (ingest data) with
  | error e => exact ⟨rfl, normalizeTimestamp_error_kind _ e hn⟩
  | ok d =>
    have hd : d.rows.length = 0 := by
      rw [normalizeTimestamp_ok_length (ingest data) d hn, he]
      rfl
    constructor
    · simp [hd, isOkE]
    · simp [hd, kindOfRes, kindOf, emptyMsg]

/-- C3 witness: an empty frame with well-typed columns. -/
theorem empty_events_raise_input_error_witness :
    isOkE (query_task_res (.parsable cfgC2) (.frame dfEmpty)) = false ∧
    kindOfRes (query_task_res (.parsable cfgC2) (.frame dfEmpty)) = .input :=
  empty_events_raise_input_error (.parsable cfgC2) (.frame dfEmpty) rfl

/-- C4 counterexample: an empty table that is missing the subject_id
column raises the empty-table error, which is input-kind but does not
name the missing column, so the claim fails as universally stated. -/
theorem missing_column_empty_table_counterexample :
    query_task_res (.parsable cfgC2) (.frame dfC4) = .error (.valueError emptyMsg) ∧
    identifiesColumn (.valueError emptyMsg) "subject_id" = false := ⟨rfl, rfl⟩

/-- C4 amended: for a nonempty event table the missing required column is
reported by an input-kind error naming it: a missing timestamp column
raises the polars column-not-found error at the timestamp-normalization
step, and a missing subject_id column (with a Datetime timestamp column
present) raises the explicit ValueError; an empty table raises the
empty-table error instead. -/
theorem missing_required_column_reported (c1 c2 : ConfigSource) (df1 df2 : DF)
    (h1 : dtypeOf df1 "timestamp" = none)
    (hne : df2.rows ≠ [])
    (hdt : dtypeOf df2 "timestamp" = some .ddatetime)
    (hnm : "subject_id" ∉ df2.colNames) :
    (query_task_res c1 (.frame df1) = .error (.columnNotFound "timestamp") ∧
      kindOf (.columnNotFound "timestamp") = .input ∧
      identifiesColumn (.columnNotFound "timestamp") "timestamp" = true) ∧
    (query_task_res c2 (.frame df2) = .error (.valueError sidMissingMsg) ∧
      kindOf (.valueError sidMissingMsg) = .input ∧
      identifiesColumn (.valueError sidMissingMsg) "subject_id" = true) := by
  constructor
  · refine ⟨?_, by decide, by decide⟩
    unfold query_task_res query_task prepare normalizeTimestamp
    rw [show ingest (.frame df1) = df1 from rfl, h1]
  · refine ⟨?_, by decide, by decide⟩
    have h0 : ¬(df2.rows.length = 0) := fun hz => hne (List.length_eq_zero.mp hz)
    have ht : "timestamp" ∈ df2.colNames := dtypeOf_some_mem df2 "timestamp" .ddatetime hdt
    unfold query_task_res query_task prepare normalizeTimestamp
    rw [show ingest (.frame df2) = df2 from rfl, hdt]
    simp [h0, ht, hnm]

/-- C4 amended witness: one table without timestamp, one nonempty table
without subject_id. -/
theorem missing_required_column_reported_witness :
    query_task_res (.parsable cfgC2) (.frame dfC4a) = .error (.columnNotFound "timestamp") ∧
    query_task_res (.parsable cfgC2) (.frame dfC4b) = .error (.valueError sidMissingMsg) :=
  ⟨(missing_required_column_reported (.parsable cfgC2) (.parsable cfgC2) dfC4a dfC4b rfl
      (by decide) rfl (by decide)).1.1,
   (missing_required_column_reported (.parsable cfgC2) (.parsable cfgC2) dfC4a dfC4b rfl
      (by decide) rfl (by decide)).2.1⟩

/-- C5: whenever the assembler succeeds, the assembled table has exactly
the subject_id key column, the root timestamp column renamed to
`<root>/timestamp`, and the `<node>/timestamp` and `<node>/window_summary`
columns for every non-root node in preorder. -/
theorem assemble_emits_namespaced_columns (t : WTree) (res asm : DF)
    (h : assemble t res = .ok asm) :
    asm.colNames = assembledCols t ∧
    ∀ n ∈ (preorderNames t).tail,
      (n ++ "/timestamp") ∈ asm.colNames ∧ (n ++ "/window_summary") ∈ asm.colNames := by
  have hcols : asm.colNames = assembledCols t := by
    simp only [assemble] at h
    cases hs : res.select (["subject_id", "timestamp"] ++
        (preorderNames t).tail.map (fun n => n ++ "/timestamp") ++
        (preorderNames t).tail.map (fun n => n ++ "/window_summary")) with
    | error e => rw [hs] at h; exact absurd h (by simp)
    | ok sel =>
      rw [hs] at h
      cases h
      rw [renameCol_colNames, select_ok_colNames res _ sel hs]
      simp only [List.map_append, List.map_cons, List.map_nil]
      rw [map_if_eq_self _ _ _ append_ts_ne_timestamp,
        map_if_eq_self _ _ _ append_ws_ne_timestamp]
      simp [assembledCols]
  refine ⟨hcols, fun n hn => ?_⟩
  rw [hcols]
  unfold assembledCols
  constructor
  · exact List.mem_cons_of_mem _ (List.mem_cons_of_mem _
      (List.mem_append_left _ (List.mem_map_of_mem _ hn)))
  · exact List.mem_cons_of_mem _ (List.mem_cons_of_mem _
      (List.mem_append_right _ (List.mem_map_of_mem _ hn)))

/-- C5 witness: the one-window tree. -/
theorem assemble_emits_namespaced_columns_witness :
    asmOneWin.colNames = assembledCols treeOneWin :=
  (assemble_emits_namespaced_columns treeOneWin resOneWin asmOneWin rfl).1

/-- C6: after label extraction, the label column of every row equals the
`is_<predicate>` field of the summary struct of the label window. -/
theorem label_equals_summary_field (cfg : TaskConfig) (w : WindowSpec) (p : String)
    (res out : DF)
    (hw : findLabelWindow cfg = some w)
    (hp : w.label = some p)
    (h : extract_label cfg res = .ok out) :
    ∀ r ∈ out.rows,
      getVal r "label" = getStructField r (w.name ++ "/window_summary") ("is_" ++ p) := by
  unfold extract_label at h
  rw [hw] at h
  simp only [hp] at h
  unfold withStructField at h
  split at h
  · cases hm : mapE (structFieldRow (w.name ++ "/window_summary") ("is_" ++ p) "label")
        res.rows with
    | error e => rw [hm] at h; exact absurd h (by simp)
    | ok rows =>
      rw [hm] at h
      cases h
      intro r hr
      obtain ⟨r0, hr0, hro⟩ := mapE_ok_mem _ res.rows rows hm r hr
      obtain ⟨fs, i, hv, hf, hreq⟩ := structFieldRow_ok _ _ _ _ _ hro
      subst hreq
      rw [lookup_setEntry_same]
      unfold getStructField
      rw [lookup_setEntry_other "label" (w.name ++ "/window_summary") _
        (append_ws_ne_label w.name) r0, hv]
      simp [hf]
  · exact absurd h (by simp)

/-- C6 witness: a one-row result with a summary struct for window `w`. -/
theorem label_equals_summary_field_witness :
    getVal rowC6 "label" = getStructField rowC6 ("w" ++ "/window_summary") ("is_" ++ "x") :=
  label_equals_summary_field cfgC6 wLabeled "x" resC6 outC6 rfl rfl rfl rowC6 (by decide)

/-- C7 counterexample: both windows of `cfgC7` carry the label flag, yet
the full query succeeds with no error of any kind. -/
theorem multiple_label_windows_no_error :
    isOkE (query_task_res (.parsable cfgC7) (.frame dfC7)) = true := rfl

/-- C7 amended: multiple label flags raise no error anywhere in the
pipeline; the label is silently extracted from the first window in
configuration order whose label flag is truthy, and later label flags are
ignored. -/
theorem first_label_window_selected (tr : TriggerSpec) (ps : List PredDef)
    (ws1 ws2 : List WindowSpec) (w : WindowSpec)
    (h1 : ∀ u ∈ ws1, isLabelTruthy u = false)
    (h2 : isLabelTruthy w = true) :
    findLabelWindow { trigger := tr, predicates := ps, windows := ws1 ++ w :: ws2 } =
      some w := by
  unfold findLabelWindow
  induction ws1 with
  | nil => simp [List.find?_cons, h2]
  | cons u rest ih =>
    have hu : isLabelTruthy u = false := h1 u (List.mem_cons_self u rest)
    simp only [List.cons_append, List.find?_cons, hu]
    exact ih (fun x hx => h1 x (List.mem_cons_of_mem u hx))

/-- C7 amended witness: an unlabeled window followed by two labeled
windows selects the first labeled one. -/
theorem first_label_window_selected_witness :
    findLabelWindow cfgThreeWins = some wLab1 :=
  first_label_window_selected ⟨"t", []⟩ [] [wNoLabel] [wLab2] wLab1 (by decide) rfl

/-- C8 counterexample: a configuration-loading failure propagates its raw
error with no added context, so the claim that both collaborators are
wrapped fails. -/
theorem config_load_error_not_wrapped :
    query_task_res (.malformed (.computeError "boom")) (.frame dfOneRow) =
      .error (.computeError "boom") ∧
    isWrapped (.computeError "boom") = false := ⟨rfl, rfl⟩

/-- C8 amended: predicate-generation errors are wrapped with context at
the `query_task` boundary; configuration-loading errors propagate
unwrapped. -/
theorem boundary_error_wrapping (c1 c2 : ConfigSource) (data : DataInput) (d : DF)
    (cfg : TaskConfig) (e1 e2 : PyError)
    (hp : prepare data = .ok d)
    (h0 : d.rows.length ≠ 0)
    (h1 : "timestamp" ∈ d.colNames)
    (h2 : "subject_id" ∈ d.colNames)
    (hl1 : load_config c1 = .error e1)
    (hl2 : load_config c2 = .ok cfg)
    (hg : generate_predicate_columns cfg d = .error e2) :
    query_task_res c1 data = .error e1 ∧
    query_task_res c2 data = .error (.wrapped genWrapMsg e2) := by
  constructor
  · unfold query_task_res query_task
    simp only [hp, hl1]
    rw [if_neg h0, if_neg (not_not_intro h1), if_neg (not_not_intro h2)]
  · unfold query_task_res query_task
    simp only [hp, hl2, hg]
    rw [if_neg h0, if_neg (not_not_intro h1), if_neg (not_not_intro h2)]

/-- C8 amended witness: a malformed configuration source and a predicate
referencing a missing source column. -/
theorem boundary_error_wrapping_witness :
    query_task_res (.malformed (.computeError "bad")) (.frame dfOneRow) =
      .error (.computeError "bad") ∧
    query_task_res (.parsable cfgBadPred) (.frame dfOneRow) =
      .error (.wrapped genWrapMsg
        (.configurationError "predicate source column missing: missing_col")) :=
  boundary_error_wrapping (.malformed (.computeError "bad")) (.parsable cfgBadPred)
    (.frame dfOneRow) dfOneRow cfgBadPred (.computeError "bad")
    (.configurationError "predicate source column missing: missing_col")
    rfl (by decide) (by decide) (by decide) rfl rfl rfl

/-- C9: the result component of `query_task` is identical for verbose and
quiet runs; the verbose flag feeds the diagnostic log lines only.  The
collaborators are modelled from the spec, whose contract for diagnostic
output is that it never affects results. -/
theorem verbose_flag_does_not_affect_result (c : ConfigSource) (data : DataInput) :
    (query_task c data true).1 = (query_task c data false).1 := by
  simp only [query_task]
  cases prepare data with
  | error e => rfl
  | ok d =>
    simp only
    split
    · rfl
    split
    · rfl
    split
    · rfl
    cases load_config c with
    | error e => rfl
    | ok cfg =>
      simp only
      cases generate_predicate_columns cfg d with
      | error e => rfl
      | ok d2 =>
        simp only
        cases build_tree_from_config cfg with
        | error e => rfl
        | ok tree =>
          simp only
          rw [build_anchor_fst cfg d2 false true]
          cases (build_anchor cfg d2 true).1 with
          | error e => rfl
          | ok anchor =>
            simp only
            rw [query_subtree_fst tree anchor d2 0 false true]
            cases (query_subtree tree anchor d2 0 true).1 with
            | error e => rfl
            | ok res =>
              simp only
              cases assemble tree res with
              | error e => rfl
              | ok asm =>
                simp only
                cases extract_label cfg asm with
                | error e => rfl
                | ok final => rfl

/-- C10: an in-memory frame is consumed exactly as supplied: ingestion
performs no null-filtering and no sorting; a Datetime-typed timestamp
column passes through unchanged, and a string timestamp column is parsed
with the fixed format %m/%d/%Y %H:%M. -/
theorem frame_input_consumed_as_supplied (df1 df2 : DF)
    (h1 : dtypeOf df1 "timestamp" = some .ddatetime)
    (h2 : dtypeOf df2 "timestamp" = some .dstr) :
    ingest (.frame df1) = df1 ∧ ingest (.frame df2) = df2 ∧
    prepare (.frame df1) = .ok df1 ∧
    prepare (.frame df2) = strptimeCol "%m/%d/%Y %H:%M" df2 := by
  refine ⟨rfl, rfl, ?_, ?_⟩
  · unfold prepare normalizeTimestamp
    rw [show ingest (.frame df1) = df1 from rfl, h1]
  · unfold prepare normalizeTimestamp
    rw [show ingest (.frame df2) = df2 from rfl, h2]

/-- C10 witness: a Datetime-typed frame and a string-typed frame. -/
theorem frame_input_consumed_as_supplied_witness :
    prepare (.frame dfOneRow) = .ok dfOneRow ∧
    prepare (.frame dfStrTs) = strptimeCol "%m/%d/%Y %H:%M" dfStrTs :=
  ⟨(frame_input_consumed_as_supplied dfOneRow dfStrTs rfl rfl).2.2.1,
   (frame_input_consumed_as_supplied dfOneRow dfStrTs rfl rfl).2.2.2⟩

end ACES
